import Mathlib

/-!
Shallow embedding of the Chatbot_app appointment-booking and reminder engine
(src/backend/apps/routes/reminders.py and src/backend/apps/routes/appointments.py).

Time is modelled in minutes: a calendar date is a day index (`Nat`), an
absolute instant is an `Int` number of minutes; a slot of the fixed one-hour
grid is identified by its start hour. Python's unbounded recursion in
`book_appointment` is embedded with explicit fuel; the external effects of
`send_reminder` (file write-back, e-mail channel, audit log) are explicit
state in a `World` record, with the e-mail channel's success a boolean
parameter.
-/

namespace ChatbotApp

/-- An appointment record, as produced by `book_appointment` and stored in
the per-patient JSON file (fields of the JSON object). -/
structure Appt where
  appointment_id : String
  patient_id : String
  date : Nat
  slot : Nat
  status : String
  reminders_sent : List String
deriving DecidableEq, Repr

/-- The daily slot grid: `[f"{h}:00-{h+1}:00" for h in range(9, 17)]`,
identified by start hour. -/
def slots : List Nat := (List.range 8).map (fun i => i + 9)

/-- `used_slots = [appt["slot"] for appt in appointment.get("appointments", [])]`:
every slot in the patient's file, with no filter on date or status. -/
def usedSlots (file : List Appt) : List Nat := file.map (fun a => a.slot)

/-- Zero-padding of `f"{n:03d}"` for the appointment id. -/
def pad3 (n : Nat) : String :=
  if n < 10 then "00" ++ toString n
  else if n < 100 then "0" ++ toString n
  else toString n

/-- `f"A{len(used_slots)+1:03d}"`. -/
def mkApptId (n : Nat) : String := "A" ++ pad3 n

/-- The slot `book_appointment` picks:
`next((s for s in slots if s not in used_slots), None)`. -/
def availableSlot (file : List Appt) : Option Nat :=
  slots.find? (fun s => !(usedSlots file).contains s)

/-- `book_appointment(patient_id, preferred_date)`, operating on the content
of the patient's appointment file. Python recurses unboundedly to the next
day when no slot is free; the embedding takes explicit fuel and returns
`none` when the fuel runs out. On success it returns the new appointment and
the updated file content. -/
def book (fuel : Nat) (file : List Appt) (pid : String) (date : Nat) :
    Option (Appt × List Appt) :=
  match fuel with
  | 0 => none
  | fuel + 1 =>
    match availableSlot file with
    | some s =>
      let a : Appt :=
        { appointment_id := mkApptId ((usedSlots file).length + 1)
          patient_id := pid
          date := date
          slot := s
          status := "upcoming"
          reminders_sent := [] }
      some (a, file ++ [a])
    | none => book fuel file pid (date + 1)

/-- The observable external state `send_reminder` touches: the patient's
appointment file, the append-only reminder log (`logs/reminders_log.txt`),
and the e-mails successfully delivered by `send_email` (recipient, kind). -/
structure World where
  file : List Appt
  log : List String
  sentEmails : List (String × String)
deriving DecidableEq, Repr

/-- The reminder type used when none is passed:
`f"Reminder-{len(appointment.get('reminders_sent', []))+1}"`. -/
def dispatchKind (a : Appt) (rt : Option String) : String :=
  rt.getD ("Reminder-" ++ toString (a.reminders_sent.length + 1))

/-- One line of the reminder log:
`f"{datetime.now()}: {reminder_type} sent to {appointment['patient_id']}"`. -/
def logLine (now : Int) (kind pid : String) : String :=
  toString now ++ ": " ++ kind ++ " sent to " ++ pid

/-- The e-mails delivered after one `send_email` attempt: `send_email` is
called only when a destination is present, and delivers only when the SMTP
channel succeeds. -/
def deliveredEmails (prev : List (String × String)) (email : Option String)
    (channelOk : Bool) (kind : String) : List (String × String) :=
  match email, channelOk with
  | some e, true => prev ++ [(e, kind)]
  | _, _ => prev

/-- `send_reminder(appointment, patient_email, reminder_type)`. `now` is the
wall clock at call time and `channelOk` models whether the SMTP send in
`send_email` succeeds (its boolean result is ignored by the caller). Returns
the updated world and the (in-memory, possibly mutated) appointment. -/
def send_reminder (w : World) (a : Appt) (email : Option String)
    (rt : Option String) (now : Int) (channelOk : Bool) : World × Appt :=
  let kind := dispatchKind a rt
  if a.reminders_sent.contains kind then (w, a)
  else
    let a' := { a with reminders_sent := a.reminders_sent ++ [kind] }
    let file' := w.file.map (fun x =>
      if x.appointment_id == a.appointment_id then a' else x)
    ({ file := file'
       log := w.log ++ [logLine now kind a.patient_id]
       sentEmails := deliveredEmails w.sentEmails email channelOk kind }, a')

/-- The appointment instant in minutes:
`datetime.strptime(f"{date} {slot.split('-')[0]}", "%Y-%m-%d %H:%M")`,
i.e. the date combined with the slot's start hour. -/
def apptInstant (a : Appt) : Int := (a.date : Int) * 1440 + (a.slot : Int) * 60

/-- The three candidate reminders of `schedule_reminders`. -/
def reminderCandidates (a : Appt) : List (String × Int) :=
  [("Reminder-60min", apptInstant a - 60),
   ("Reminder-30min", apptInstant a - 30),
   ("Final-Reminder", apptInstant a)]

/-- `schedule_reminders(appointment, patient_email)`: enqueues a job for each
candidate whose run date is strictly after `datetime.now()`. The result is
the list of enqueued `(kind, fire_at)` jobs. -/
def schedule_reminders (a : Appt) (now : Int) : List (String × Int) :=
  (reminderCandidates a).filter (fun c => decide (now < c.2))

/-- The reminder kinds that the scheduler ever passes to `send_reminder`. -/
def planKinds : List String := ["Reminder-60min", "Reminder-30min", "Final-Reminder"]

/-- `POST /send_reminder/{appointment_id}` (appointments.py,
`send_reminder_endpoint`) on an existing appointment whose patient exists:
reads the appointment file, reads the patient's e-mail, and calls
`schedule_reminders(appointment_data, email)`. Returns the enqueued jobs and
the appointment as left on disk. -/
def send_reminder_endpoint (a : Appt) (email : Option String) (now : Int) :
    List (String × Int) × Appt :=
  (schedule_reminders a now, a)

/-- The spec's occupied-slot rule, for comparison with the source's
`availableSlot`: only the patient's `upcoming` appointments on the requested
date count as occupied. -/
def availableSlotSpec (file : List Appt) (d : Nat) : Option Nat :=
  slots.find? (fun s =>
    !((file.filter (fun a => a.status == "upcoming" && a.date == d)).map
        (fun a => a.slot)).contains s)

/-- A sequence of booking requests: each date in `ds` is one
`book_appointment` call for the same patient; calls that do not succeed
leave the file unchanged. -/
def bookSeq (fuel : Nat) (pid : String) : List Appt → List Nat → List Appt
  | file, [] => file
  | file, d :: ds =>
    match book fuel file pid d with
    | some (_, file') => bookSeq fuel pid file' ds
    | none => bookSeq fuel pid file ds

/-- Appointment states reachable in the engine: a freshly booked
appointment, followed by any number of `send_reminder` calls as the
repository makes them — the scheduler passes one of the three kinds of
`planKinds` as `reminder_type`, and `create_patient` (patients.py) calls
`send_reminder(appointment, patient.email)` with no `reminder_type` at all. -/
inductive ReachableAppt : Appt → Prop
  | booked (fuel : Nat) (file : List Appt) (pid : String) (d : Nat)
      (a : Appt) (file' : List Appt) :
      book fuel file pid d = some (a, file') → ReachableAppt a
  | dispatched (w : World) (a : Appt) (email : Option String)
      (rt : Option String) (now : Int) (ok : Bool) :
      ReachableAppt a → (rt = none ∨ ∃ k ∈ planKinds, rt = some k) →
      ReachableAppt (send_reminder w a email rt now ok).2

/-- A freshly booked appointment: `book 1 [] "P1" 0 = some (apptA1, [apptA1])`. -/
def apptA1 : Appt :=
  { appointment_id := "A001", patient_id := "P1", date := 0, slot := 9
    status := "upcoming", reminders_sent := [] }

/-- A cancelled appointment occupying the first slot of day 0. -/
def cancelledAppt : Appt :=
  { appointment_id := "A001", patient_id := "P1", date := 0, slot := 9
    status := "cancelled", reminders_sent := [] }

/-- An upcoming appointment whose 60-minute reminder is already recorded. -/
def apptSent60 : Appt :=
  { appointment_id := "A001", patient_id := "P1", date := 0, slot := 9
    status := "upcoming", reminders_sent := ["Reminder-60min"] }

/-- An upcoming appointment on day 1 at 9:00, all reminders in the future
of minute 0. -/
def apptFuture : Appt :=
  { appointment_id := "A001", patient_id := "P1", date := 1, slot := 9
    status := "upcoming", reminders_sent := [] }

/-- The appointment `book_appointment` produces for day 1 when the file
already holds `cancelledAppt`. -/
def apptA2cex : Appt :=
  { appointment_id := "A002", patient_id := "P1", date := 1, slot := 10
    status := "upcoming", reminders_sent := [] }

/-- A patient file in which every slot of the 9-17 grid is occupied
(eight upcoming appointments on day 0). -/
def fullFile0 : List Appt :=
  slots.map (fun s =>
    { appointment_id := mkApptId (s - 8), patient_id := "P1", date := 0
      slot := s, status := "upcoming", reminders_sent := [] })

/-- Outcome of the `POST /` create endpoint in appointments.py. -/
inductive CreateResult where
  | created (a : Appt)
  | badRequest
  | serverError
deriving DecidableEq, Repr

/-- The per-appointment file store of appointments.py
(`appointment_{id}.json` files), keyed by appointment id. -/
def lookupAppt (st : List (String × Appt)) (id : String) : Option Appt :=
  (st.find? (fun p => p.1 == id)).map (fun p => p.2)

/-- `appointment_exists(appointment_id)`. -/
def appointment_exists (st : List (String × Appt)) (id : String) : Bool :=
  (st.find? (fun p => p.1 == id)).isSome

/-- `create_appointment(appointment)`. `patientEmail` is `none` when
`patient_exists` is false, otherwise `some` of the patient's optional e-mail;
`schedOk` models whether `schedule_reminders` raises (the `except` branch
returns a 500 after the file was already written). Returns the store after
the call, the HTTP outcome, and the jobs enqueued. -/
def create_appointment (st : List (String × Appt)) (a : Appt)
    (patientEmail : Option (Option String)) (schedOk : Bool) (now : Int) :
    List (String × Appt) × CreateResult × List (String × Int) :=
  if appointment_exists st a.appointment_id then (st, .badRequest, [])
  else
    let st' := st ++ [(a.appointment_id, a)]
    match patientEmail with
    | none => (st', .created a, [])
    | some _ =>
      if schedOk then (st', .created a, schedule_reminders a now)
      else (st', .serverError, [])

/-- A world holding the freshly booked appointment of `apptA1`. -/
def w0 : World := { file := [apptA1], log := [], sentEmails := [] }

/-- `create_patient`'s first `send_reminder(appointment, patient.email)`
call (no `reminder_type`) on the freshly booked appointment. -/
def apptNone1 : Appt := (send_reminder w0 apptA1 (some "p@x.com") none 0 true).2

/-- The second such call. -/
def apptNone2 : Appt :=
  (send_reminder w0 apptNone1 (some "p@x.com") none 0 true).2

/-- The third such call: `reminders_sent` ends as
`["Reminder-1", "Reminder-2", "Reminder-3"]`. -/
def apptNone3 : Appt :=
  (send_reminder w0 apptNone2 (some "p@x.com") none 0 true).2

/-! Helper lemmas about `book`. -/

theorem book_none_of_noSlot (file : List Appt) (pid : String)
    (h : availableSlot file = none) :
    ∀ fuel d, book fuel file pid d = none := by
  intro fuel
  induction fuel with
  | zero => intro d; rfl
  | succ n ih => intro d; simp only [book, h]; exact ih (d + 1)

theorem book_some_char (fuel : Nat) (file : List Appt) (pid : String) (d : Nat)
    (a : Appt) (file' : List Appt) (h : book fuel file pid d = some (a, file')) :
    availableSlot file = some a.slot ∧ a.date = d ∧ a.status = "upcoming" ∧
    a.reminders_sent = [] ∧ a.patient_id = pid ∧
    a.appointment_id = mkApptId (file.length + 1) ∧ file' = file ++ [a] := by
  cases fuel with
  | zero => simp [book] at h
  | succ n =>
    cases hs : availableSlot file with
    | none =>
      rw [show book (n + 1) file pid d = book n file pid (d + 1) by
            simp only [book, hs],
          book_none_of_noSlot file pid hs n (d + 1)] at h
      exact absurd h (by simp)
    | some s =>
      simp only [book, hs] at h
      obtain ⟨ha, hf⟩ := Prod.mk.injEq .. ▸ Option.some.injEq .. ▸ h
      subst hf
      simp [← ha, hs, usedSlots]

theorem book_slot_fresh (fuel : Nat) (file : List Appt) (pid : String) (d : Nat)
    (a : Appt) (file' : List Appt) (h : book fuel file pid d = some (a, file')) :
    a.slot ∉ usedSlots file := by
  have hchar := book_some_char fuel file pid d a file' h
  have hfind := List.find?_some hchar.1
  simpa using hfind

/-- C1 (counterexample): a single cancelled appointment on day 0 at slot 9
makes `book_appointment` for day 1 return slot 10, although no upcoming
appointment of the patient occupies any slot on day 1; the spec's rule
(only upcoming appointments on the requested date) would give slot 9, so
occupied slots are not computed from that patient's upcoming appointments on
the requested date only. -/
theorem c1_counterexample :
    (book 5 [cancelledAppt] "P1" 1).map (fun p => p.1.slot) = some 10 ∧
    availableSlotSpec [cancelledAppt] 1 = some 9 := by decide

/-- C1 (amended): every successful `book_appointment` call books the
requested date at the first free slot of the 9-17 grid, where the occupied
slots are those of ALL appointments in the patient's file, with no filter on
date or status; the new appointment is appended to the file. -/
theorem c1_allocator_scoping (fuel : Nat) (file : List Appt) (pid : String)
    (d : Nat) (a : Appt) (file' : List Appt)
    (h : book fuel file pid d = some (a, file')) :
    availableSlot file = some a.slot ∧ a.date = d ∧ a.status = "upcoming" ∧
    file' = file ++ [a] :=
  have hc := book_some_char fuel file pid d a file' h
  ⟨hc.1, hc.2.1, hc.2.2.1, hc.2.2.2.2.2.2⟩

/-- C1 (witness): the amended statement at a concrete successful booking. -/
theorem c1_allocator_scoping_witness :
    availableSlot [cancelledAppt] = some 10 ∧ (1 : Nat) = 1 ∧
    ("upcoming" : String) = "upcoming" ∧
    ([cancelledAppt, apptA2cex] : List Appt) = [cancelledAppt] ++ [apptA2cex] := by
  have h := c1_allocator_scoping 5 [cancelledAppt] "P1" 1 apptA2cex
    [cancelledAppt, apptA2cex] (by decide)
  exact ⟨h.1, rfl, rfl, h.2.2.2⟩

/-- C5 (code evaluated at the failing input): once a patient's file occupies
all eight grid slots, `book_appointment` never terminates — for every
recursion depth and every requested date the search still finds no free
slot, because the occupied-slot computation is independent of the date, so
the day-rollover recursion can never succeed and the claimed `D+1` booking
is never returned. -/
theorem c5_full_day_never_returns (fuel d : Nat) :
    book fuel fullFile0 "P1" d = none :=
  book_none_of_noSlot fullFile0 "P1" (by decide) fuel d

theorem bookSeq_usedSlots_nodup (fuel : Nat) (pid : String) (ds : List Nat)
    (file : List Appt) (h : (usedSlots file).Nodup) :
    (usedSlots (bookSeq fuel pid file ds)).Nodup := by
  induction ds generalizing file with
  | nil => simpa [bookSeq]
  | cons d ds ih =>
    simp only [bookSeq]
    cases hb : book fuel file pid d with
    | none => exact ih file h
    | some p =>
      obtain ⟨a, file'⟩ := p
      have hfresh := book_slot_fresh fuel file pid d a file' hb
      have hfile := (book_some_char fuel file pid d a file' hb).2.2.2.2.2.2
      apply ih
      subst hfile
      simp only [usedSlots, List.map_append, List.map_cons, List.map_nil]
      exact List.Nodup.append h (List.nodup_singleton _)
        (by simpa [usedSlots, List.disjoint_right] using hfresh)

/-- C7: starting from an empty patient file, any sequence of booking
requests (overlapping dates included) leaves the patient's upcoming
appointments with pairwise distinct `(date, slot)` pairs — in fact the
booked slots themselves are pairwise distinct. -/
theorem c7_no_double_booking (fuel : Nat) (pid : String) (ds : List Nat) :
    (((bookSeq fuel pid [] ds).filter (fun a => a.status == "upcoming")).map
      (fun a => (a.date, a.slot))).Nodup := by
  have hall : (usedSlots (bookSeq fuel pid [] ds)).Nodup :=
    bookSeq_usedSlots_nodup fuel pid ds [] (by simp [usedSlots])
  have hsub : (usedSlots ((bookSeq fuel pid [] ds).filter
      (fun a => a.status == "upcoming"))).Nodup := by
    refine List.Nodup.sublist (List.Sublist.map _ ?_) hall
    exact List.filter_sublist _
  refine List.Nodup.of_map Prod.snd ?_
  have : ((((bookSeq fuel pid [] ds).filter (fun a => a.status == "upcoming")).map
      (fun a => (a.date, a.slot))).map Prod.snd) =
      usedSlots ((bookSeq fuel pid [] ds).filter (fun a => a.status == "upcoming")) := by
    simp [usedSlots, List.map_map, Function.comp]
  rw [this]
  exact hsub

/-! Helper lemmas about `send_reminder`. -/

theorem send_reminder_def (w : World) (a : Appt) (email : Option String)
    (rt : Option String) (now : Int) (ok : Bool) :
    send_reminder w a email rt now ok =
      if dispatchKind a rt ∈ a.reminders_sent then (w, a)
      else
        ({ file := w.file.map (fun x =>
             if x.appointment_id == a.appointment_id
             then { a with reminders_sent :=
                      a.reminders_sent ++ [dispatchKind a rt] } else x)
           log := w.log ++ [logLine now (dispatchKind a rt) a.patient_id]
           sentEmails :=
             deliveredEmails w.sentEmails email ok (dispatchKind a rt) },
         { a with reminders_sent := a.reminders_sent ++ [dispatchKind a rt] }) := by
  simp only [send_reminder]
  split <;> simp_all

theorem dispatchKind_some (a : Appt) (k : String) :
    dispatchKind a (some k) = k := rfl

theorem send_reminder_appt (w : World) (a : Appt) (email : Option String)
    (k : String) (now : Int) (ok : Bool) :
    (send_reminder w a email (some k) now ok).2 =
      if k ∈ a.reminders_sent then a
      else { a with reminders_sent := a.reminders_sent ++ [k] } := by
  rw [send_reminder_def]
  by_cases h : k ∈ a.reminders_sent <;> simp [dispatchKind_some, h]

theorem send_reminder_log (w : World) (a : Appt) (email : Option String)
    (k : String) (now : Int) (ok : Bool) :
    (send_reminder w a email (some k) now ok).1.log =
      if k ∈ a.reminders_sent then w.log
      else w.log ++ [logLine now k a.patient_id] := by
  rw [send_reminder_def]
  by_cases h : k ∈ a.reminders_sent <;> simp [dispatchKind_some, h]

/-- C2 (counterexample): with the kind not yet recorded, a dispatch whose
e-mail channel fails — and likewise one with no destination address at
all — still ends with the kind recorded in `reminders_sent`, and no
`DeliveryFailed`/`NoDestination` distinction is produced. -/
theorem c2_counterexample :
    (send_reminder ⟨[apptA1], [], []⟩ apptA1 (some "p@x.com")
        (some "Reminder-60min") 0 false).2.reminders_sent = ["Reminder-60min"] ∧
    (send_reminder ⟨[apptA1], [], []⟩ apptA1 none
        (some "Reminder-60min") 0 true).2.reminders_sent = ["Reminder-60min"] := by
  decide

/-- C2 (amended): `send_reminder` records the kind in `reminders_sent`
before attempting any delivery, so the final ledger is the same whatever the
destination (`email`) and whatever the channel outcome (`ok`): the kind is
appended whenever it was not already present. -/
theorem c2_marks_sent_before_delivery (w : World) (a : Appt)
    (email : Option String) (k : String) (now : Int) (ok : Bool) :
    (send_reminder w a email (some k) now ok).2.reminders_sent =
      if k ∈ a.reminders_sent then a.reminders_sent
      else a.reminders_sent ++ [k] := by
  rw [send_reminder_appt]
  by_cases h : k ∈ a.reminders_sent <;> simp [h]

/-- C6 (counterexample): dispatching a reminder for a `cancelled`
appointment still appends the kind to `reminders_sent` and still delivers
the e-mail; the dispatch is not turned into a no-op by the status change. -/
theorem c6_counterexample :
    (send_reminder ⟨[cancelledAppt], [], []⟩ cancelledAppt (some "p@x.com")
        (some "Reminder-60min") 0 true).2.reminders_sent = ["Reminder-60min"] ∧
    (send_reminder ⟨[cancelledAppt], [], []⟩ cancelledAppt (some "p@x.com")
        (some "Reminder-60min") 0 true).1.sentEmails =
      [("p@x.com", "Reminder-60min")] := by
  decide

/-- C6 (amended): `send_reminder` never consults the appointment status and
never reloads the appointment from the store before deciding: its ledger
update, its audit-log line and its delivered e-mails are identical for any
two statuses of the in-memory appointment, and the resulting appointment is
identical for any two states of the store. -/
theorem c6_dispatch_ignores_status (w w' : World) (a : Appt)
    (email : Option String) (rt : Option String) (now : Int) (ok : Bool)
    (st st' : String) :
    ((send_reminder w { a with status := st } email rt now ok).2.reminders_sent =
      (send_reminder w { a with status := st' } email rt now ok).2.reminders_sent) ∧
    ((send_reminder w { a with status := st } email rt now ok).1.log =
      (send_reminder w { a with status := st' } email rt now ok).1.log) ∧
    ((send_reminder w { a with status := st } email rt now ok).1.sentEmails =
      (send_reminder w { a with status := st' } email rt now ok).1.sentEmails) ∧
    ((send_reminder w a email rt now ok).2 =
      (send_reminder w' a email rt now ok).2) := by
  have hk : ∀ s, dispatchKind { a with status := s } rt = dispatchKind a rt :=
    fun _ => rfl
  refine ⟨?_, ?_, ?_, ?_⟩ <;>
    simp only [send_reminder_def, hk] <;>
      by_cases h : dispatchKind a rt ∈ a.reminders_sent <;> simp [h]

/-- C9 (counterexample): a dispatch attempt for a kind already recorded in
`reminders_sent` (outcome "already delivered") appends no line at all to the
reminder log, not exactly one. -/
theorem c9_counterexample :
    (send_reminder ⟨[apptSent60], [], []⟩ apptSent60 (some "p@x.com")
        (some "Reminder-60min") 0 true).1.log = [] := by
  decide

/-- C9 (amended): a dispatch attempt short-circuited by deduplication
appends nothing to the log; every other dispatch attempt, whatever the
delivery outcome, appends exactly one line, and that line contains the
timestamp, the reminder kind and the patient id (not the appointment id and
not the outcome). -/
theorem c9_log_per_attempt (w : World) (a : Appt) (email : Option String)
    (k : String) (now : Int) (ok : Bool) :
    (send_reminder w a email (some k) now ok).1.log =
      if k ∈ a.reminders_sent then w.log
      else w.log ++ [toString now ++ ": " ++ k ++ " sent to " ++ a.patient_id] := by
  rw [send_reminder_log]
  by_cases h : k ∈ a.reminders_sent <;> simp [h, logLine]

theorem send_reminder_appt_rt (w : World) (a : Appt) (email : Option String)
    (rt : Option String) (now : Int) (ok : Bool) :
    (send_reminder w a email rt now ok).2 =
      if dispatchKind a rt ∈ a.reminders_sent then a
      else { a with reminders_sent :=
               a.reminders_sent ++ [dispatchKind a rt] } := by
  rw [send_reminder_def]
  by_cases h : dispatchKind a rt ∈ a.reminders_sent <;> simp [h]

theorem nodup_dispatch (w : World) (a : Appt) (email : Option String)
    (rt : Option String) (now : Int) (ok : Bool)
    (h : a.reminders_sent.Nodup) :
    (send_reminder w a email rt now ok).2.reminders_sent.Nodup := by
  rw [send_reminder_appt_rt]
  by_cases hc : dispatchKind a rt ∈ a.reminders_sent
  · rw [if_pos hc]; exact h
  · rw [if_neg hc]
    simpa [List.nodup_append, hc] using h

theorem reachable_nodup (a : Appt) (h : ReachableAppt a) :
    a.reminders_sent.Nodup := by
  induction h with
  | booked fuel file pid d a file' hb =>
    rw [(book_some_char fuel file pid d a file' hb).2.2.2.1]
    exact List.nodup_nil
  | dispatched w a email rt now ok hr hrt ih =>
    exact nodup_dispatch w a email rt now ok ih

theorem mem_after_dispatch (w : World) (a : Appt) (email : Option String)
    (k : String) (now : Int) (ok : Bool) :
    k ∈ (send_reminder w a email (some k) now ok).2.reminders_sent := by
  rw [send_reminder_appt]
  by_cases hc : k ∈ a.reminders_sent <;> simp [hc]

/-- C3 (counterexample): the patient-creation flow reaches an appointment
state whose `reminders_sent` holds kinds outside the reminder plan —
`create_patient` books an appointment and then calls `send_reminder` three
times with no `reminder_type`, which appends `Reminder-1`, `Reminder-2`,
`Reminder-3`, none of which is a plan kind. -/
theorem c3_counterexample :
    ReachableAppt apptNone3 ∧
    apptNone3.reminders_sent = ["Reminder-1", "Reminder-2", "Reminder-3"] ∧
    "Reminder-1" ∉ planKinds :=
  ⟨ReachableAppt.dispatched w0 apptNone2 (some "p@x.com") none 0 true
    (ReachableAppt.dispatched w0 apptNone1 (some "p@x.com") none 0 true
      (ReachableAppt.dispatched w0 apptA1 (some "p@x.com") none 0 true
        (ReachableAppt.booked 1 [] "P1" 0 apptA1 [apptA1] (by decide))
        (Or.inl rfl))
      (Or.inl rfl))
    (Or.inl rfl),
   by decide, by decide⟩

/-- C3 (amended): in every reachable appointment state `reminders_sent` is
duplicate-free (each kind appears at most once, enforced by the duplicate
check at append time), but it is not confined to the three plan kinds: the
patient-creation flow appends `Reminder-1`/`Reminder-2`/`Reminder-3`.
Dispatching the same kind twice in succession still leaves exactly one
entry of that kind. -/
theorem c3_ledger_nodup (a : Appt) (h : ReachableAppt a) :
    a.reminders_sent.Nodup ∧
    ∀ (k : String) (w w' : World) (email email' : Option String)
      (now now' : Int) (ok ok' : Bool),
      ((send_reminder w' (send_reminder w a email (some k) now ok).2
          email' (some k) now' ok').2.reminders_sent.count k = 1) := by
  have hnd := reachable_nodup a h
  refine ⟨hnd, ?_⟩
  intro k w w' email email' now now' ok ok'
  have hnd1 : (send_reminder w a email (some k) now ok).2.reminders_sent.Nodup :=
    nodup_dispatch w a email (some k) now ok hnd
  have hmem : k ∈ (send_reminder w a email (some k) now ok).2.reminders_sent :=
    mem_after_dispatch w a email k now ok
  rw [send_reminder_appt w' _ email' k now' ok', if_pos hmem]
  exact List.count_eq_one_of_mem hnd1 hmem

/-- C3 (witness): duplicate-freedom and the double-dispatch idempotence at
a concrete freshly booked appointment. -/
theorem c3_ledger_nodup_witness :
    apptA1.reminders_sent.Nodup ∧
    ∀ (k : String) (w w' : World) (email email' : Option String)
      (now now' : Int) (ok ok' : Bool),
      ((send_reminder w' (send_reminder w apptA1 email (some k) now ok).2
          email' (some k) now' ok').2.reminders_sent.count k = 1) :=
  c3_ledger_nodup apptA1
    (ReachableAppt.booked 1 [] "P1" 0 apptA1 [apptA1] (by decide))

/-- C4: the scheduled jobs are exactly the three candidates — `Reminder-60min`
at the appointment instant minus 60 minutes, `Reminder-30min` at the instant
minus 30 minutes, `Final-Reminder` at the instant (the instant being the
date combined with the slot's start time) — restricted to fire times
strictly later than the clock at plan-build time; in particular no scheduled
fire time is `now` or earlier. -/
theorem c4_plan_future_candidates (a : Appt) (now : Int) (k : String) (t : Int) :
    (k, t) ∈ schedule_reminders a now ↔
      now < t ∧
        ((k = "Reminder-60min" ∧
            t = (a.date : Int) * 1440 + (a.slot : Int) * 60 - 60) ∨
         (k = "Reminder-30min" ∧
            t = (a.date : Int) * 1440 + (a.slot : Int) * 60 - 30) ∨
         (k = "Final-Reminder" ∧
            t = (a.date : Int) * 1440 + (a.slot : Int) * 60)) := by
  simp only [schedule_reminders, reminderCandidates, apptInstant,
    List.mem_filter, List.mem_cons, List.not_mem_nil, or_false,
    Prod.mk.injEq, decide_eq_true_eq]
  exact and_comm

/-- C8 (counterexample): triggering the manual reminder endpoint on an
appointment with an empty `reminders_sent` and a resolvable patient performs
no delivery at all — the appointment (its ledger included) is returned
unchanged and the call merely enqueues the three future reminder jobs. -/
theorem c8_counterexample :
    (send_reminder_endpoint apptFuture (some "p@x.com") 0).2 = apptFuture ∧
    (send_reminder_endpoint apptFuture (some "p@x.com") 0).2.reminders_sent
      = [] ∧
    (send_reminder_endpoint apptFuture (some "p@x.com") 0).1 =
      [("Reminder-60min", 1920), ("Reminder-30min", 1950),
       ("Final-Reminder", 1980)] := by
  decide

/-- C8 (amended): the manual reminder endpoint does not deliver anything
synchronously: it leaves the appointment unchanged, merely re-runs the
standard reminder scheduling (future candidates only), and the jobs it
enqueues are independent of which kinds are already in `reminders_sent`. -/
theorem c8_trigger_only_schedules (a : Appt) (email : Option String)
    (now : Int) (rs : List String) :
    (send_reminder_endpoint a email now).2 = a ∧
    (send_reminder_endpoint a email now).1 = schedule_reminders a now ∧
    (send_reminder_endpoint { a with reminders_sent := rs } email now).1 =
      (send_reminder_endpoint a email now).1 :=
  ⟨rfl, rfl, rfl⟩

theorem lookupAppt_append_self (st : List (String × Appt)) (id : String)
    (a : Appt) (h : appointment_exists st id = false) :
    lookupAppt (st ++ [(id, a)]) id = some a := by
  induction st with
  | nil => simp [lookupAppt, List.find?]
  | cons p st ih =>
    simp only [appointment_exists, List.find?] at h
    cases hp : (p.1 == id) with
    | true => rw [hp] at h; simp at h
    | false =>
      rw [hp] at h
      have := ih h
      simpa [lookupAppt, List.find?, hp] using this

/-- C10: creating an appointment whose id already exists fails with 400 and
changes nothing (same store, no scheduling); otherwise the record is
appended to the store and remains retrievable whatever the patient lookup
and whether or not reminder scheduling fails afterwards. -/
theorem c10_create_no_overwrite (st : List (String × Appt)) (a : Appt)
    (pe : Option (Option String)) (so : Bool) (now : Int) :
    (appointment_exists st a.appointment_id = true →
      create_appointment st a pe so now = (st, .badRequest, [])) ∧
    (appointment_exists st a.appointment_id = false →
      (create_appointment st a pe so now).1 = st ++ [(a.appointment_id, a)] ∧
      lookupAppt (create_appointment st a pe so now).1 a.appointment_id
        = some a) := by
  constructor
  · intro h
    simp [create_appointment, h]
  · intro h
    have h1 : (create_appointment st a pe so now).1
        = st ++ [(a.appointment_id, a)] := by
      simp only [create_appointment, h]
      cases pe with
      | none => simp
      | some e => by_cases hs : so <;> simp [hs]
    exact ⟨h1, h1 ▸ lookupAppt_append_self st a.appointment_id a h⟩

/-- C10 (witness): both branches at concrete inputs — a duplicate id is
rejected without touching the store, and with a fresh id the record is
persisted and retrievable even though reminder scheduling fails. -/
theorem c10_create_no_overwrite_witness :
    create_appointment [("A001", apptA1)] apptA1 none true 0
      = ([("A001", apptA1)], .badRequest, []) ∧
    (create_appointment [] apptA1 (some (some "p@x.com")) false 0).1
      = [("A001", apptA1)] ∧
    lookupAppt (create_appointment [] apptA1 (some (some "p@x.com")) false 0).1
      "A001" = some apptA1 := by
  refine ⟨(c10_create_no_overwrite [("A001", apptA1)] apptA1 none true 0).1
    (by decide), ?_, ?_⟩
  · exact ((c10_create_no_overwrite [] apptA1 (some (some "p@x.com")) false 0).2
      (by decide)).1
  · exact ((c10_create_no_overwrite [] apptA1 (some (some "p@x.com")) false 0).2
      (by decide)).2

end ChatbotApp
